import Mathlib

/-
Verification of the ISO-TP (ISO 15765-2) receive-side reassembly decoder
(`src/lib.rs`, `src/error.rs`).

Shallow embedding conventions:
* Rust `u8`/`u16` values are modelled as `Nat`; wrapping arithmetic is made
  explicit with `% 256` / `% 65536` where the source performs machine
  arithmetic that can wrap (release-mode two's-complement semantics).
* A CAN frame (`&[u8; 8]`) is modelled as a `List Nat`; theorems that care
  fix its length to 8 and its entries to bytes.
* Slice operations that can panic in Rust (out-of-bounds `copy_from_slice`
  targets, out-of-bounds indexing in `data()`) are modelled by returning
  `none`: `update` returns `Option (state × Except Error (Option Nat))`,
  where the outer `none` means the call panics and produces no result.
-/

namespace IsoTp

/-- Max number of data bytes per frame (`MAX_DATA_BYTES_PER_FRAME`). -/
def MAX_DATA_BYTES_PER_FRAME : Nat := 7

/-- Number of bytes in a single CAN frame (`NUM_BYTES_PER_FRAME`). -/
def NUM_BYTES_PER_FRAME : Nat := 8

/-- Maximum number of bytes that can be sent in a single transmission
(`MAX_BYTES_PER_TRANSFER`). -/
def MAX_BYTES_PER_TRANSFER : Nat := 4095

/-- Frame type, decoded from the upper four bits of byte 0 (`FrameType`). -/
inductive FrameType where
  | Single
  | First
  | Consecutive
  | FlowControl
deriving DecidableEq, Repr

/-- The `num_enum::FromPrimitive` derive on `FrameType`: nibble values 0-3 map
to the four frame kinds, anything else to the `#[default]` variant `Single`. -/
def FrameType.fromPrimitive (n : Nat) : FrameType :=
  if n = 0 then FrameType.Single
  else if n = 1 then FrameType.First
  else if n = 2 then FrameType.Consecutive
  else if n = 3 then FrameType.FlowControl
  else FrameType.Single

/-- Error type for the ISO-TP library (`error.rs`). Payloads are the `u16`/`u8`
numbers carried by the Rust enum variants. -/
inductive Error where
  | Overflow (received expected : Nat)
  | MissedFrame (expectedIdx actualIdx : Nat)
  | BufferTooSmall (capacity length : Nat)
deriving DecidableEq, Repr

/-- Decoder state (`TransportDecoder<const N: usize>`). The buffer
`data : [u8; N]` is modelled as a `List Nat`; in every state produced by the
Rust type its length is `N` (theorems that depend on this carry the
hypothesis `data.length = N`, established by `new` and preserved by
`update`). -/
structure TransportDecoder (N : Nat) where
  data : List Nat
  expected_length : Nat
  current_length : Nat
  next_index : Nat
deriving DecidableEq, Repr

/-- Rust `dst[start..start+src.len()].copy_from_slice(src)` on a buffer:
`none` models the panic when the destination range is out of bounds. -/
def copyWithin (buf : List Nat) (start : Nat) (src : List Nat) : Option (List Nat) :=
  if start + src.length ≤ buf.length then
    some (buf.take start ++ src ++ buf.drop (start + src.length))
  else none

/-- `TransportDecoder::new`: zeroed buffer and scalar state. -/
def TransportDecoder.new (N : Nat) : TransportDecoder N :=
  { data := List.replicate N 0
    expected_length := 0
    current_length := 0
    next_index := 0 }

/-- `TransportDecoder::max_size`: the capacity `N`. -/
def TransportDecoder.max_size {N : Nat} (_ : TransportDecoder N) : Nat := N

/-- `TransportDecoder::ready`: `expected_length == current_length`. -/
def TransportDecoder.ready {N : Nat} (self : TransportDecoder N) : Bool :=
  self.expected_length == self.current_length

/-- `TransportDecoder::update`. Faithful transcription of the Rust `match` on
the decoded frame type.  The outer `Option` models panics: `none` is a Rust
panic (out-of-bounds slice copy); `some (s, r)` is a normal return with
post-state `s` and `Result` value `r`. Machine arithmetic that can wrap
(`next_index += 1` on `u8`, `expected_length - current_length` and
`current_length += data_length` on `u16`) is taken with release-mode
wrapping semantics, written as explicit `% 256` / `% 65536`. -/
def TransportDecoder.update {N : Nat} (self : TransportDecoder N) (frame : List Nat) :
    Option (TransportDecoder N × Except Error (Option Nat)) :=
  match FrameType.fromPrimitive (frame.getD 0 0 / 16) with
  | FrameType.Single =>
    let data_length := frame.getD 0 0 % 16
    if data_length > MAX_DATA_BYTES_PER_FRAME then
      some (self, Except.error (Error.Overflow data_length MAX_BYTES_PER_TRANSFER))
    else
      match copyWithin self.data 0 ((frame.drop 1).take data_length) with
      | none => none
      | some buf =>
        some ({ self with
                  data := buf
                  expected_length := data_length
                  current_length := data_length },
              Except.ok (some data_length))
  | FrameType.First =>
    let expected_length := (frame.getD 0 0 % 16) * 256 + frame.getD 1 0
    let max_size := self.max_size % 65536
    if expected_length > max_size then
      some (self, Except.error (Error.BufferTooSmall max_size expected_length))
    else
      match copyWithin self.data 0 (frame.drop 2) with
      | none => none
      | some buf =>
        some ({ self with
                  data := buf
                  expected_length := expected_length
                  current_length := 6
                  next_index := 1 },
              Except.ok none)
  | FrameType.Consecutive =>
    let expected_index := self.next_index % 16
    let actual_index := frame.getD 0 0 % 16
    if expected_index = actual_index then
      let next_index := (self.next_index + 1) % 256
      let data_remaining := (self.expected_length + 65536 - self.current_length) % 65536
      let data_length := min MAX_DATA_BYTES_PER_FRAME data_remaining
      let data_start := self.current_length
      match copyWithin self.data data_start ((frame.drop 1).take data_length) with
      | none => none
      | some buf =>
        let s : TransportDecoder N :=
          { self with
              data := buf
              next_index := next_index
              current_length := (self.current_length + data_length) % 65536 }
        if s.ready then some (s, Except.ok (some s.current_length))
        else some (s, Except.ok none)
    else
      some (self, Except.error (Error.MissedFrame expected_index actual_index))
  | FrameType.FlowControl =>
    some (self, Except.ok none)

/-- `TransportDecoder::data` (named `dataView` here because the buffer field
already uses the name `data`): `Some(&self.data[..expected_length])` when
ready, else `None`.  The outer `Option` models the panic of the slice
indexing when `expected_length` exceeds the buffer length (impossible for a
buffer of the Rust type's length `N` in reachable states). -/
def TransportDecoder.dataView {N : Nat} (self : TransportDecoder N) :
    Option (Option (List Nat)) :=
  if self.ready then
    if self.expected_length ≤ self.data.length then
      some (some (self.data.take self.expected_length))
    else none
  else some none

/-- Feed a list of frames to the decoder in order, collecting the result of
each call; `none` if any call panics. -/
def feedAll {N : Nat} (s : TransportDecoder N) :
    List (List Nat) → Option (TransportDecoder N × List (Except Error (Option Nat)))
  | [] => some (s, [])
  | f :: fs =>
    match s.update f with
    | none => none
    | some (s', r) =>
      match feedAll s' fs with
      | none => none
      | some (s'', rs) => some (s'', r :: rs)

/-- The First frame of the multi-frame split of a payload of length `L`:
byte 0 carries nibble 1 (First) and the high 4 bits of the 12-bit length,
byte 1 the low 8 bits, bytes 2..8 the first six payload bytes. -/
def mkFirstFrame (L : Nat) (payload : List Nat) : List Nat :=
  (16 + L / 256) :: (L % 256) :: payload.take 6

/-- A Consecutive frame: byte 0 carries nibble 2 (Consecutive) and the
sequence index mod 16; bytes 1..8 carry up to 7 chunk bytes, zero-padded. -/
def mkConsFrame (idx : Nat) (chunk : List Nat) : List Nat :=
  (32 + idx % 16) :: (chunk ++ List.replicate (7 - chunk.length) 0)

/-- Consecutive frames for the remaining payload `rest`, with indices
`idx, idx + 1, …` and successive 7-byte chunks; the fuel `n` is the number
of frames still to build. -/
def consFramesAux : Nat → Nat → List Nat → List (List Nat)
  | 0, _, _ => []
  | n + 1, idx, rest => mkConsFrame idx (rest.take 7) :: consFramesAux n (idx + 1) (rest.drop 7)

/-- The multi-frame split described by the spec: one First frame holding the
first 6 payload bytes, then `ceil((L - 6) / 7)` Consecutive frames with
indices 1, 2, 3, … carrying successive 7-byte chunks. -/
def encodeMulti (payload : List Nat) : List (List Nat) :=
  mkFirstFrame payload.length payload ::
    consFramesAux ((payload.length - 6 + 6) / 7) 1 (payload.drop 6)

end IsoTp

namespace IsoTp

/-- Unfolding lemma: an in-bounds `copyWithin` replaces the addressed range. -/
theorem copyWithin_some (buf : List Nat) (start : Nat) (src : List Nat)
    (h : start + src.length ≤ buf.length) :
    copyWithin buf start src =
      some (buf.take start ++ src ++ buf.drop (start + src.length)) := by
  simp [copyWithin, h]

/-- One in-sequence Consecutive frame: from a partially filled reachable
state, `update` copies the next `min 7 (L - m)` payload bytes and reports
completion exactly when the payload is exhausted. -/
theorem update_cons_helper (N : Nat) (P : List Nat) (L m j idx : Nat)
    (hP : P.length = L) (hm : m < L) (hL : L ≤ N) (hL16 : L < 65536)
    (hj : j % 16 = idx % 16) :
    TransportDecoder.update
        (⟨P.take m ++ List.replicate (N - m) 0, L, m, j⟩ : TransportDecoder N)
        (mkConsFrame idx ((P.drop m).take 7)) =
      some (⟨P.take (m + min 7 (L - m)) ++ List.replicate (N - (m + min 7 (L - m))) 0,
             L, m + min 7 (L - m), (j + 1) % 256⟩,
            if L = m + min 7 (L - m) then Except.ok (some (m + min 7 (L - m)))
            else Except.ok none) := by
  set c := (P.drop m).take 7 with hc
  set d := min 7 (L - m) with hd
  have hd1 : d ≤ 7 := Nat.min_le_left _ _
  have hd2 : d ≤ L - m := Nat.min_le_right _ _
  have hcl : c.length = d := by
    rw [hc, hd]; simp [hP]
  have hframe0 : (mkConsFrame idx c).getD 0 0 = 32 + idx % 16 := rfl
  have htype : FrameType.fromPrimitive ((mkConsFrame idx c).getD 0 0 / 16) =
      FrameType.Consecutive := by
    rw [hframe0]
    have h16 : idx % 16 < 16 := Nat.mod_lt _ (by omega)
    have h2 : (32 + idx % 16) / 16 = 2 := by omega
    rw [h2]; rfl
  rw [TransportDecoder.update, htype]
  simp only [hframe0]
  have hact : (32 + idx % 16) % 16 = idx % 16 := by omega
  rw [hact, if_pos hj]
  have hrem : (L + 65536 - m) % 65536 = L - m := by omega
  simp only [hrem, MAX_DATA_BYTES_PER_FRAME]
  rw [show min 7 (L - m) = d from hd.symm]
  have hsrc : ((mkConsFrame idx c).drop 1).take d = c := by
    show ((c ++ List.replicate (7 - c.length) 0).take d) = c
    rw [List.take_append_eq_append_take, hcl]
    have hcc : c.take d = c := by rw [← hcl]; exact List.take_length c
    rw [hcc]
    simp
  rw [hsrc]
  have hbuflen : (P.take m ++ List.replicate (N - m) 0).length = N := by
    simp [hP]; omega
  have hcopy := copyWithin_some (P.take m ++ List.replicate (N - m) 0) m c
    (by rw [hbuflen, hcl]; omega)
  rw [hcopy]
  dsimp only
  have h1 : (P.take m ++ List.replicate (N - m) 0).take m = P.take m := by
    rw [List.take_append_eq_append_take]
    have hh : (P.take m).length = m := by simp [hP]; omega
    rw [hh, Nat.sub_self, List.take_zero, List.append_nil, List.take_take, Nat.min_self]
  have h2 : (P.take m ++ List.replicate (N - m) 0).drop (m + c.length) =
      List.replicate (N - (m + d)) 0 := by
    rw [hcl, List.drop_append_eq_append_drop]
    have hlt : (P.take m).length = m := by simp [hP]; omega
    rw [hlt]
    have hnil : (P.take m).drop (m + d) = [] :=
      List.drop_eq_nil_of_le (by rw [hlt]; omega)
    rw [hnil, List.drop_replicate]
    simp
    omega
  have h3 : P.take m ++ c = P.take (m + d) := by
    rw [List.take_add]
    congr 1
    rw [hc]
    rcases Nat.le_total 7 (L - m) with h | h
    · have hde : d = 7 := by omega
      rw [hde]
    · have hdl : (P.drop m).length = L - m := by simp [hP]
      have hde : d = L - m := by omega
      rw [hde, ← hdl, List.take_length, List.take_of_length_le (by omega)]
  rw [h1, h2]
  rw [show P.take m ++ c ++ List.replicate (N - (m + d)) 0 =
        P.take (m + d) ++ List.replicate (N - (m + d)) 0 by rw [h3]]
  have hcur : (m + d) % 65536 = m + d := by omega
  simp only [TransportDecoder.ready, hcur]
  by_cases hLd : L = m + d
  · rw [if_pos (by simp [hLd]), if_pos hLd]
  · rw [if_neg (by simp [hLd]), if_neg hLd]


/-- Feeding the remaining Consecutive frames: all but the last report
`Ok(None)`, the last reports `Ok(Some L)`, and the buffer ends up holding
the whole payload. -/
theorem feed_cons_helper (n : Nat) : ∀ (N : Nat) (P : List Nat) (L m j idx : Nat),
    P.length = L → m < L → L ≤ N → L < 65536 → j % 16 = idx % 16 →
    n = ((L - m) + 6) / 7 →
    ∃ j2, feedAll (⟨P.take m ++ List.replicate (N - m) 0, L, m, j⟩ : TransportDecoder N)
        (consFramesAux n idx (P.drop m)) =
      some (⟨P ++ List.replicate (N - L) 0, L, L, j2⟩,
            List.replicate (n - 1) (Except.ok none) ++ [Except.ok (some L)]) := by
  induction n with
  | zero =>
    intro N P L m j idx hP hm hL hL16 hj hn
    omega
  | succ n ih =>
    intro N P L m j idx hP hm hL hL16 hj hn
    have hd1 : min 7 (L - m) ≤ 7 := Nat.min_le_left _ _
    have hd2 : min 7 (L - m) ≤ L - m := Nat.min_le_right _ _
    have hdc : min 7 (L - m) = 7 ∨ min 7 (L - m) = L - m := min_choice _ _
    have step := update_cons_helper N P L m j idx hP hm hL hL16 hj
    by_cases hLd : L = m + min 7 (L - m)
    · have hn0 : n = 0 := by omega
      subst hn0
      refine ⟨(j + 1) % 256, ?_⟩
      rw [consFramesAux, consFramesAux]
      rw [if_pos hLd] at step
      simp only [feedAll, step]
      have hPt : P.take (m + min 7 (L - m)) = P := by
        rw [← hLd, ← hP, List.take_length]
      rw [hPt, ← hLd]
      simp
    · have hd7 : min 7 (L - m) = 7 := by omega
      have hm7 : m + 7 < L := by omega
      have hj' : (j + 1) % 256 % 16 = (idx + 1) % 16 := by
        rw [Nat.mod_mod_of_dvd _ (by norm_num)]
        omega
      have hn' : n = ((L - (m + 7)) + 6) / 7 := by omega
      obtain ⟨j2, hfeed⟩ := ih N P L (m + 7) ((j + 1) % 256) (idx + 1) hP hm7 hL hL16 hj' hn'
      refine ⟨j2, ?_⟩
      rw [consFramesAux]
      have hdd : (P.drop m).drop 7 = P.drop (m + 7) := by
        rw [List.drop_drop]
      rw [hdd]
      rw [if_neg hLd, hd7] at step
      simp only [feedAll, step]
      rw [hfeed]
      have hnrep : List.replicate (n + 1 - 1) ((Except.ok none : Except Error (Option Nat))) =
          Except.ok none :: List.replicate (n - 1) (Except.ok none) := by
        have hn1 : 1 ≤ n := by omega
        rw [show n + 1 - 1 = (n - 1) + 1 by omega]
        rw [List.replicate_succ]
      rw [hnrep]
      rfl


/-- A First frame whose declared length fits the (untruncated) capacity:
`update` records the declared length, copies bytes 2..8 to the buffer
start, sets `current_length = 6`, `next_index = 1`, and reports `Ok(None)`
regardless of the declared length's relation to 6. -/
theorem update_first_helper {N : Nat} (s : TransportDecoder N) (f : List Nat)
    (hWF : s.data.length = N) (hN : N < 65536) (hN6 : 6 ≤ N)
    (htype : f.getD 0 0 / 16 = 1) (hflen : f.length = 8)
    (hfit : (f.getD 0 0 % 16) * 256 + f.getD 1 0 ≤ N) :
    s.update f =
      some ({ data := f.drop 2 ++ s.data.drop 6
              expected_length := (f.getD 0 0 % 16) * 256 + f.getD 1 0
              current_length := 6
              next_index := 1 }, Except.ok none) := by
  have h1 : FrameType.fromPrimitive (f.getD 0 0 / 16) = FrameType.First := by
    rw [htype]; rfl
  have hlen2 : (f.drop 2).length = 6 := by simp [hflen]
  have hcopy : copyWithin s.data 0 (f.drop 2) =
      some (s.data.take 0 ++ f.drop 2 ++ s.data.drop (0 + (f.drop 2).length)) :=
    copyWithin_some _ _ _ (by omega)
  rw [TransportDecoder.update, h1]
  simp only [TransportDecoder.max_size]
  rw [Nat.mod_eq_of_lt hN]
  rw [if_neg (by omega)]
  rw [hcopy]
  simp [hlen2]

/-- C1 (amended): multi-frame round trip. For a payload of length `L` with
`8 ≤ L ≤ min N 4095` and capacity `N ≤ 65535`, feeding the spec's split
(one First frame, then `ceil((L - 6) / 7)` Consecutive frames with indices
1, 2, 3, …) to a fresh decoder yields `Ok(None)` for every frame but the
last, `Ok(Some L)` for the last, and `data()` then equals the payload.
The bound `L ≤ 4095` is inherent to the 12-bit First-frame length field;
`N ≤ 65535` is forced by the `max_size() as u16` truncation (see the
counterexample). -/
theorem multi_frame_round_trip (N L : Nat) (payload : List Nat)
    (hlen : payload.length = L) (h8 : 8 ≤ L) (hLN : L ≤ N) (h4095 : L ≤ 4095)
    (hN : N < 65536) :
    ∃ s : TransportDecoder N,
      feedAll (TransportDecoder.new N) (encodeMulti payload) =
        some (s, List.replicate ((L - 6 + 6) / 7) (Except.ok none) ++
          [Except.ok (some L)]) ∧
      s.dataView = some (some payload) := by
  have hgd0 : (mkFirstFrame L payload).getD 0 0 = 16 + L / 256 := rfl
  have hgd1 : (mkFirstFrame L payload).getD 1 0 = L % 256 := rfl
  have hdiv : L / 256 ≤ 15 := by omega
  have hstep := update_first_helper (TransportDecoder.new N) (mkFirstFrame L payload)
    (by simp [TransportDecoder.new]) hN (by omega)
    (by rw [hgd0]; omega)
    (by simp [mkFirstFrame]; omega)
    (by rw [hgd0, hgd1]; omega)
  rw [hgd0, hgd1] at hstep
  have hexp : (16 + L / 256) % 16 * 256 + L % 256 = L := by omega
  rw [hexp] at hstep
  have hdrop2 : (mkFirstFrame L payload).drop 2 = payload.take 6 := rfl
  have hdropbuf : (TransportDecoder.new N).data.drop 6 = List.replicate (N - 6) 0 := by
    simp [TransportDecoder.new]
  rw [hdrop2, hdropbuf] at hstep
  have hm : 6 < L := by omega
  have hj : 1 % 16 = 1 % 16 := rfl
  have hn : (L - 6 + 6) / 7 = ((L - 6) + 6) / 7 := rfl
  obtain ⟨j2, hfeed⟩ := feed_cons_helper ((L - 6 + 6) / 7) N payload L 6 1 1 hlen hm hLN
    (by omega) hj hn
  refine ⟨⟨payload ++ List.replicate (N - L) 0, L, L, j2⟩, ?_, ?_⟩
  · rw [encodeMulti, hlen]
    simp only [feedAll, hstep, hfeed]
    have hn1 : 1 ≤ (L - 6 + 6) / 7 := by omega
    have hrep : List.replicate ((L - 6 + 6) / 7)
          ((Except.ok none : Except Error (Option Nat))) =
        Except.ok none :: List.replicate ((L - 6 + 6) / 7 - 1) (Except.ok none) := by
      conv_lhs => rw [show (L - 6 + 6) / 7 = ((L - 6 + 6) / 7 - 1) + 1 by omega]
      rw [List.replicate_succ]
    rw [hrep, List.cons_append]
  · rw [TransportDecoder.dataView]
    have hready : (⟨payload ++ List.replicate (N - L) 0, L, L, j2⟩ :
        TransportDecoder N).ready = true := by
      simp [TransportDecoder.ready]
    rw [if_pos hready]
    have hexplen : L ≤ (payload ++ List.replicate (N - L) 0).length := by
      simp [hlen]
    rw [if_pos hexplen]
    have htake : (payload ++ List.replicate (N - L) 0).take L = payload := by
      rw [List.take_append_eq_append_take, hlen, Nat.sub_self, List.take_zero,
        List.append_nil, ← hlen, List.take_length]
    rw [htake]


/-- C1 witness: the multi-frame round trip at capacity 20 with the 20-byte
payload 1..20 (the repository's own multi-frame test vector). -/
theorem multi_frame_round_trip_witness :
    ([1, 2, 3, 4, 5, 6, 7, 8, 9, 10, 11, 12, 13, 14, 15, 16, 17, 18, 19, 20] :
        List Nat).length = 20 ∧
    8 ≤ 20 ∧ 20 ≤ 20 ∧ 20 ≤ 4095 ∧ 20 < 65536 ∧
    (∃ s : TransportDecoder 20,
      feedAll (TransportDecoder.new 20)
          (encodeMulti [1, 2, 3, 4, 5, 6, 7, 8, 9, 10, 11, 12, 13, 14, 15, 16, 17, 18, 19, 20]) =
        some (s, List.replicate ((20 - 6 + 6) / 7) (Except.ok none) ++
          [Except.ok (some 20)]) ∧
      s.dataView =
        some (some [1, 2, 3, 4, 5, 6, 7, 8, 9, 10, 11, 12, 13, 14, 15, 16, 17, 18, 19, 20])) :=
  ⟨rfl, by decide, by decide, by decide, by decide,
    multi_frame_round_trip 20 20 _ rfl (by decide) (by decide) (by decide) (by decide)⟩

/-- C1 counterexample: the claim as stated fails at capacity N = 65536 with
payload length L = 8 (so 8 ≤ L ≤ N).  Because `update` compares the declared
length against `max_size() as u16` = N mod 65536 = 0, the First frame of the
split is rejected with `BufferTooSmall(0, 8)` instead of yielding `Ok(None)`,
and the following Consecutive frame then misses the sequence check. -/
theorem multi_frame_round_trip_counterexample :
    feedAll (TransportDecoder.new 65536) (encodeMulti [1, 2, 3, 4, 5, 6, 7, 8]) =
      some (TransportDecoder.new 65536,
        [Except.error (Error.BufferTooSmall 0 8),
         Except.error (Error.MissedFrame 0 1)]) := rfl

/-- C2: single-frame round trip. For any `L ≤ 7` (with `L ≤ N` so the copy is
in bounds) and any 8-byte frame whose byte 0 is `L` and whose bytes `1..1+L`
are the payload, one `update` on a fresh decoder returns `Ok(Some L)`,
after which `ready()` is true and `data()` is exactly the payload. -/
theorem single_frame_round_trip (N L : Nat) (payload f : List Nat)
    (hL : L ≤ 7) (hLN : L ≤ N) (hplen : payload.length = L) (_hflen : f.length = 8)
    (hb0 : f.getD 0 0 = L) (hpay : (f.drop 1).take L = payload) :
    ∃ s : TransportDecoder N,
      TransportDecoder.update (TransportDecoder.new N) f =
        some (s, Except.ok (some L)) ∧
      s.ready = true ∧ s.dataView = some (some payload) := by
  have htype : FrameType.fromPrimitive (f.getD 0 0 / 16) = FrameType.Single := by
    rw [hb0, Nat.div_eq_of_lt (by omega)]; rfl
  have hmod : f.getD 0 0 % 16 = L := by rw [hb0]; omega
  have hcopy : copyWithin (TransportDecoder.new N).data 0 payload =
      some ((TransportDecoder.new N).data.take 0 ++ payload ++
        (TransportDecoder.new N).data.drop (0 + payload.length)) :=
    copyWithin_some _ _ _ (by simp [TransportDecoder.new, hplen]; omega)
  refine ⟨⟨payload ++ List.replicate (N - L) 0, L, L, 0⟩, ?_, ?_, ?_⟩
  · rw [TransportDecoder.update, htype]
    simp only [hmod]
    rw [if_neg (by simp [MAX_DATA_BYTES_PER_FRAME]; omega)]
    rw [hpay, hcopy]
    simp [TransportDecoder.new, hplen]
  · simp [TransportDecoder.ready]
  · rw [TransportDecoder.dataView]
    have hready : ((⟨payload ++ List.replicate (N - L) 0, L, L, 0⟩ :
        TransportDecoder N)).ready = true := by simp [TransportDecoder.ready]
    rw [if_pos hready]
    rw [if_pos (by simp [hplen])]
    have htake : (payload ++ List.replicate (N - L) 0).take L = payload := by
      rw [List.take_append_eq_append_take, hplen, Nat.sub_self, List.take_zero,
        List.append_nil, ← hplen, List.take_length]
    rw [htake]

/-- C2 witness: the repository's own single-frame test vector of length 7 on
a capacity-8 decoder. -/
theorem single_frame_round_trip_witness :
    7 ≤ 7 ∧ 7 ≤ 8 ∧
    ([153, 170, 187, 204, 221, 238, 255] : List Nat).length = 7 ∧
    ([7, 153, 170, 187, 204, 221, 238, 255] : List Nat).length = 8 ∧
    ([7, 153, 170, 187, 204, 221, 238, 255] : List Nat).getD 0 0 = 7 ∧
    (([7, 153, 170, 187, 204, 221, 238, 255] : List Nat).drop 1).take 7 =
      [153, 170, 187, 204, 221, 238, 255] ∧
    (∃ s : TransportDecoder 8,
      TransportDecoder.update (TransportDecoder.new 8)
          [7, 153, 170, 187, 204, 221, 238, 255] =
        some (s, Except.ok (some 7)) ∧
      s.ready = true ∧ s.dataView = some (some [153, 170, 187, 204, 221, 238, 255])) :=
  ⟨by decide, by decide, rfl, rfl, rfl, rfl,
    single_frame_round_trip 8 7 _ _ (by decide) (by decide) rfl rfl rfl rfl⟩

/-- C3: the intended invariant `current_length ≤ expected_length` is violated
by the code on a reachable state: one successful `update` with the First
frame `[0x10, 0x03, …]` (declared length 3 ≤ N = 8) returns `Ok(None)` and
leaves `expected_length = 3 < current_length = 6`. -/
theorem first_frame_invariant_violation :
    ∃ s : TransportDecoder 8,
      TransportDecoder.update (TransportDecoder.new 8) [16, 3, 0, 0, 0, 0, 0, 0] =
        some (s, Except.ok none) ∧
      s.expected_length < s.current_length :=
  ⟨⟨List.replicate 8 0, 3, 6, 1⟩, rfl, by decide⟩


/-- C4 counterexample: the First-frame step claim fails as stated.  At
capacity N = 0 with declared length 0 ≤ N, the unconditional 6-byte copy
into `buffer[0..6]` is out of bounds and the call panics instead of
returning `Ok(None)`; at capacity N = 65536 with declared length 5 ≤ N, the
truncated capacity check (`max_size() as u16` = 0) rejects the frame with
`BufferTooSmall(0, 5)` instead of accepting it. -/
theorem first_frame_step_counterexample :
    TransportDecoder.update (TransportDecoder.new 0) [16, 0, 0, 0, 0, 0, 0, 0] = none ∧
    TransportDecoder.update (TransportDecoder.new 65536) [16, 5, 0, 0, 0, 0, 0, 0] =
      some (TransportDecoder.new 65536, Except.error (Error.BufferTooSmall 0 5)) :=
  ⟨rfl, rfl⟩

/-- C4 (amended): for a decoder with `6 ≤ N ≤ 65535`, updating with a First
frame whose declared 12-bit length is at most `N` sets `expected_length` to
the declared length, copies frame bytes 2..8 into buffer positions 0..6,
sets `current_length = 6` and `next_index = 1`, and returns `Ok(None)`
unconditionally — also when the declared length is ≤ 6. -/
theorem first_frame_step {N : Nat} (s : TransportDecoder N) (f : List Nat)
    (hWF : s.data.length = N) (hN6 : 6 ≤ N) (hN : N < 65536)
    (htype : f.getD 0 0 / 16 = 1) (hflen : f.length = 8)
    (hfit : (f.getD 0 0 % 16) * 256 + f.getD 1 0 ≤ N) :
    s.update f =
      some ({ data := f.drop 2 ++ s.data.drop 6
              expected_length := (f.getD 0 0 % 16) * 256 + f.getD 1 0
              current_length := 6
              next_index := 1 }, Except.ok none) :=
  update_first_helper s f hWF hN hN6 htype hflen hfit

/-- C4 witness: a First frame declaring length 3 (≤ 6) on a fresh capacity-8
decoder still copies all six bytes and reports `Ok(None)`. -/
theorem first_frame_step_witness :
    (TransportDecoder.new 8).data.length = 8 ∧ 6 ≤ 8 ∧ 8 < 65536 ∧
    ([16, 3, 9, 8, 7, 6, 5, 4] : List Nat).getD 0 0 / 16 = 1 ∧
    ([16, 3, 9, 8, 7, 6, 5, 4] : List Nat).length = 8 ∧
    (([16, 3, 9, 8, 7, 6, 5, 4] : List Nat).getD 0 0 % 16) * 256 +
      ([16, 3, 9, 8, 7, 6, 5, 4] : List Nat).getD 1 0 ≤ 8 ∧
    TransportDecoder.update (TransportDecoder.new 8) [16, 3, 9, 8, 7, 6, 5, 4] =
      some ({ data := ([16, 3, 9, 8, 7, 6, 5, 4] : List Nat).drop 2 ++
                (TransportDecoder.new 8).data.drop 6
              expected_length := (([16, 3, 9, 8, 7, 6, 5, 4] : List Nat).getD 0 0 % 16) * 256 +
                ([16, 3, 9, 8, 7, 6, 5, 4] : List Nat).getD 1 0
              current_length := 6
              next_index := 1 }, Except.ok none) :=
  ⟨by decide, by decide, by decide, by decide, rfl, by decide,
    first_frame_step (TransportDecoder.new 8) [16, 3, 9, 8, 7, 6, 5, 4]
      (by decide) (by decide) (by decide) (by decide) rfl (by decide)⟩

/-- C5: a Consecutive frame whose index nibble differs from
`next_index & 0xF` makes `update` return `MissedFrame(required, actual)` and
leave the decoder completely unchanged. -/
theorem consecutive_missed_frame {N : Nat} (s : TransportDecoder N) (f : List Nat)
    (htype : f.getD 0 0 / 16 = 2) (hmiss : f.getD 0 0 % 16 ≠ s.next_index % 16) :
    s.update f =
      some (s, Except.error (Error.MissedFrame (s.next_index % 16) (f.getD 0 0 % 16))) := by
  have h1 : FrameType.fromPrimitive (f.getD 0 0 / 16) = FrameType.Consecutive := by
    rw [htype]; rfl
  rw [TransportDecoder.update, h1]
  dsimp only
  rw [if_neg (fun h => hmiss h.symm)]

/-- C5 witness: a fresh decoder (`next_index = 0`) fed the Consecutive frame
`[0x21, …]` (index 1) reports `MissedFrame(0, 1)` and is unchanged. -/
theorem consecutive_missed_frame_witness :
    ([33, 1, 2, 3, 4, 5, 6, 7] : List Nat).getD 0 0 / 16 = 2 ∧
    ([33, 1, 2, 3, 4, 5, 6, 7] : List Nat).getD 0 0 % 16 ≠
      (TransportDecoder.new 8).next_index % 16 ∧
    TransportDecoder.update (TransportDecoder.new 8) [33, 1, 2, 3, 4, 5, 6, 7] =
      some (TransportDecoder.new 8,
        Except.error (Error.MissedFrame ((TransportDecoder.new 8).next_index % 16)
          (([33, 1, 2, 3, 4, 5, 6, 7] : List Nat).getD 0 0 % 16))) :=
  ⟨by decide, by decide,
    consecutive_missed_frame (TransportDecoder.new 8) [33, 1, 2, 3, 4, 5, 6, 7]
      (by decide) (by decide)⟩

/-- C6: a First frame (with byte 1 a byte value) whose declared 12-bit length
exceeds the capacity `N` makes `update` return `BufferTooSmall(N, declared)`
and leave the decoder unchanged.  (The declared length is then ≤ 4095, so
`N < 4096` and the `as u16` truncation of `N` is the identity.) -/
theorem first_frame_buffer_too_small {N : Nat} (s : TransportDecoder N) (f : List Nat)
    (htype : f.getD 0 0 / 16 = 1) (hb1 : f.getD 1 0 < 256)
    (hbig : N < (f.getD 0 0 % 16) * 256 + f.getD 1 0) :
    s.update f =
      some (s, Except.error (Error.BufferTooSmall N
        ((f.getD 0 0 % 16) * 256 + f.getD 1 0))) := by
  have h1 : FrameType.fromPrimitive (f.getD 0 0 / 16) = FrameType.First := by
    rw [htype]; rfl
  rw [TransportDecoder.update, h1]
  simp only [TransportDecoder.max_size]
  have hN : N % 65536 = N := Nat.mod_eq_of_lt (by omega)
  rw [hN, if_pos (by omega)]

/-- C6 witness: a capacity-8 decoder rejects a First frame declaring 20 bytes
with `BufferTooSmall(8, 20)`. -/
theorem first_frame_buffer_too_small_witness :
    ([16, 20, 1, 2, 3, 4, 5, 6] : List Nat).getD 0 0 / 16 = 1 ∧
    ([16, 20, 1, 2, 3, 4, 5, 6] : List Nat).getD 1 0 < 256 ∧
    8 < (([16, 20, 1, 2, 3, 4, 5, 6] : List Nat).getD 0 0 % 16) * 256 +
      ([16, 20, 1, 2, 3, 4, 5, 6] : List Nat).getD 1 0 ∧
    TransportDecoder.update (TransportDecoder.new 8) [16, 20, 1, 2, 3, 4, 5, 6] =
      some (TransportDecoder.new 8,
        Except.error (Error.BufferTooSmall 8
          ((([16, 20, 1, 2, 3, 4, 5, 6] : List Nat).getD 0 0 % 16) * 256 +
            ([16, 20, 1, 2, 3, 4, 5, 6] : List Nat).getD 1 0))) :=
  ⟨by decide, by decide, by decide,
    first_frame_buffer_too_small (TransportDecoder.new 8) [16, 20, 1, 2, 3, 4, 5, 6]
      (by decide) (by decide) (by decide)⟩

/-- C7 counterexample: the Single-frame overflow claim fails as stated.  On a
fresh capacity-8 decoder the Single frame `[0x08, …]` yields
`Overflow(8, 4095)` — the reported limit is the transfer-wide maximum
`MAX_BYTES_PER_TRANSFER` = 4095, not the per-frame payload limit 7 — and
`ready()` is true afterwards, because the untouched fresh decoder has
`expected_length = current_length = 0`. -/
theorem single_frame_overflow_counterexample :
    TransportDecoder.update (TransportDecoder.new 8) [8, 0, 0, 0, 0, 0, 0, 0] =
      some (TransportDecoder.new 8, Except.error (Error.Overflow 8 4095)) ∧
    (TransportDecoder.new 8).ready = true ∧
    MAX_DATA_BYTES_PER_FRAME = 7 ∧ MAX_BYTES_PER_TRANSFER = 4095 :=
  ⟨rfl, rfl, rfl, rfl⟩

/-- C7 (amended): a Single frame whose length nibble exceeds 7 makes `update`
return `Overflow(length, MAX_BYTES_PER_TRANSFER)` — the limit reported is the
transfer-wide maximum 4095, not the per-frame limit — and leaves the decoder
unchanged, so `ready()` keeps whatever value it had before the call. -/
theorem single_frame_overflow {N : Nat} (s : TransportDecoder N) (f : List Nat)
    (htype : f.getD 0 0 / 16 = 0) (hbig : 7 < f.getD 0 0 % 16) :
    s.update f =
      some (s, Except.error (Error.Overflow (f.getD 0 0 % 16) MAX_BYTES_PER_TRANSFER)) := by
  have h1 : FrameType.fromPrimitive (f.getD 0 0 / 16) = FrameType.Single := by
    rw [htype]; rfl
  rw [TransportDecoder.update, h1]
  dsimp only
  rw [if_pos (show f.getD 0 0 % 16 > MAX_DATA_BYTES_PER_FRAME by
    show f.getD 0 0 % 16 > 7
    omega)]

/-- C7 witness: a mid-transfer capacity-8 decoder fed the Single frame
`[0x09, …]` reports `Overflow(9, 4095)` and is unchanged (so `ready()` stays
false there). -/
theorem single_frame_overflow_witness :
    ([9, 0, 0, 0, 0, 0, 0, 0] : List Nat).getD 0 0 / 16 = 0 ∧
    7 < ([9, 0, 0, 0, 0, 0, 0, 0] : List Nat).getD 0 0 % 16 ∧
    TransportDecoder.update (⟨List.replicate 8 0, 8, 6, 1⟩ : TransportDecoder 8)
        [9, 0, 0, 0, 0, 0, 0, 0] =
      some (⟨List.replicate 8 0, 8, 6, 1⟩,
        Except.error (Error.Overflow (([9, 0, 0, 0, 0, 0, 0, 0] : List Nat).getD 0 0 % 16)
          MAX_BYTES_PER_TRANSFER)) :=
  ⟨by decide, by decide,
    single_frame_overflow (⟨List.replicate 8 0, 8, 6, 1⟩ : TransportDecoder 8)
      [9, 0, 0, 0, 0, 0, 0, 0] (by decide) (by decide)⟩


/-- C8: `update` is not total — it can panic on a reachable state.  After the
First frame `[0x10, 0x00, …]` (declared length 0, accepted with `Ok(None)`)
the state has `expected_length = 0 < current_length = 6`; the next
in-sequence Consecutive frame computes `expected_length - current_length`,
which underflows (panicking in debug builds; wrapping to 65530 in release
builds, where the subsequent 7-byte copy at offset 6 of the 8-byte buffer is
then out of bounds and panics).  The model returns `none` (panic). -/
theorem update_panic_on_underflow_path :
    TransportDecoder.update (TransportDecoder.new 8) [16, 0, 0, 0, 0, 0, 0, 0] =
      some (⟨List.replicate 8 0, 0, 6, 1⟩, Except.ok none) ∧
    TransportDecoder.update (⟨List.replicate 8 0, 0, 6, 1⟩ : TransportDecoder 8)
      [33, 1, 2, 3, 4, 5, 6, 7] = none :=
  ⟨rfl, rfl⟩

/-- C9: read stability of `data()`.  For any state whose `expected_length` is
within the buffer (true of every reachable state), `data()` returns `None`
whenever `ready()` is false and the slice `buffer[0..expected_length]`
whenever `ready()` is true.  `data()` and `ready()` are pure functions of
the state in the embedding, so repeated calls return identical results and
modify nothing. -/
theorem data_read_stability {N : Nat} (s : TransportDecoder N)
    (hWF : s.expected_length ≤ s.data.length) :
    (s.ready = false → s.dataView = some none) ∧
    (s.ready = true → s.dataView = some (some (s.data.take s.expected_length))) := by
  constructor
  · intro h
    rw [TransportDecoder.dataView, h]
    rfl
  · intro h
    rw [TransportDecoder.dataView, h]
    simp [hWF]

/-- C9 witness: a completed 2-byte transfer in a capacity-3 decoder: `ready()`
is true and `data()` is the first two buffer bytes; the not-ready conjunct
holds vacuously. -/
theorem data_read_stability_witness :
    (⟨[1, 2, 3], 2, 2, 0⟩ : TransportDecoder 3).expected_length ≤
      (⟨[1, 2, 3], 2, 2, 0⟩ : TransportDecoder 3).data.length ∧
    (((⟨[1, 2, 3], 2, 2, 0⟩ : TransportDecoder 3).ready = false →
      (⟨[1, 2, 3], 2, 2, 0⟩ : TransportDecoder 3).dataView = some none) ∧
     ((⟨[1, 2, 3], 2, 2, 0⟩ : TransportDecoder 3).ready = true →
      (⟨[1, 2, 3], 2, 2, 0⟩ : TransportDecoder 3).dataView =
        some (some ((⟨[1, 2, 3], 2, 2, 0⟩ : TransportDecoder 3).data.take
          (⟨[1, 2, 3], 2, 2, 0⟩ : TransportDecoder 3).expected_length)))) :=
  ⟨by decide, data_read_stability (⟨[1, 2, 3], 2, 2, 0⟩ : TransportDecoder 3) (by decide)⟩

/-- C10: a FlowControl frame (high nibble of byte 0 equal to 3) is a no-op:
`update` returns `Ok(None)` and the decoder is returned unchanged, whatever
the remaining seven bytes contain. -/
theorem flow_control_noop {N : Nat} (s : TransportDecoder N) (f : List Nat)
    (htype : f.getD 0 0 / 16 = 3) :
    s.update f = some (s, Except.ok none) := by
  have h1 : FrameType.fromPrimitive (f.getD 0 0 / 16) = FrameType.FlowControl := by
    rw [htype]; rfl
  rw [TransportDecoder.update, h1]

/-- C10 witness: a FlowControl frame with arbitrary status/pacing bytes on a
mid-transfer decoder changes nothing and reports `Ok(None)`. -/
theorem flow_control_noop_witness :
    ([48, 1, 2, 3, 4, 5, 6, 7] : List Nat).getD 0 0 / 16 = 3 ∧
    TransportDecoder.update (⟨[9, 9, 9, 9], 4, 2, 1⟩ : TransportDecoder 4)
        [48, 1, 2, 3, 4, 5, 6, 7] =
      some (⟨[9, 9, 9, 9], 4, 2, 1⟩, Except.ok none) :=
  ⟨by decide,
    flow_control_noop (⟨[9, 9, 9, 9], 4, 2, 1⟩ : TransportDecoder 4)
      [48, 1, 2, 3, 4, 5, 6, 7] (by decide)⟩

end IsoTp
